import Mathlib

/-
Verification of the dns-check-updated and transip-api crates.

The dns-check-updated crate polls a domain's authoritative nameservers
until every one of them serves the expected ACME DNS-01 challenge TXT
record, with a bounded retry budget.  The transip-api crate's
authentication module parses a JWT-style bearer token and reports its
expiry.

Shallow embedding conventions:
* The poll loop in `has_acme_challenge` (src/crates/dns-check-updated/src/lib.rs)
  is pure except for DNS queries and sleeps.  DNS is modelled as an
  environment: `query round resolver` gives the outcome the resolver
  reports when queried in the given CHECK round (rounds are numbered in
  evaluation order, so round `i` is the check performed while the Rust
  attempt counter equals `i`).  Sleeps have no observable effect in the
  embedding and are dropped.
* Fallible Rust functions returning `Result` become `Except`.
* The external hickory-resolver engine is modelled only as deep as the
  repository touches it: the options record carries exactly the fields
  lib.rs sets, with hickory's documented defaults.
-/

namespace DnsCheck

/-- Modelled from the spec: the error enum lives in
src/crates/dns-check-updated/src/error.rs, which is not among the provided
sources.  lib.rs names the `AcmeChallege` variant directly; spec section 7
names the resolver-initialisation, no-authority and transport kinds. -/
inductive Error where
  | ResolverInit
  | DomainHasNoAuthority
  | Transport
  | AcmeChallege
deriving DecidableEq

/-- hickory-resolver's IP lookup strategy (external crate). -/
inductive LookupIpStrategy where
  | Ipv4Only
  | Ipv6Only
  | Ipv4AndIpv6
  | Ipv6thenIpv4
  | Ipv4thenIpv6
deriving DecidableEq

/-- hickory-resolver's nameserver group, modelled as the data
`from_ips_clear` packs into it: the IPs, the port, and the
trust-negative-responses flag. -/
structure NameServerConfigGroup where
  ips : List String
  port : Nat
  trust_negative_responses : Bool
deriving DecidableEq

def NameServerConfigGroup.from_ips_clear (ips : List String) (port : Nat)
    (trust : Bool) : NameServerConfigGroup :=
  ⟨ips, port, trust⟩

/-- hickory-resolver's ResolverConfig, as built by `from_parts`. -/
structure ResolverConfig where
  domain : Option String
  search : List String
  group : NameServerConfigGroup
deriving DecidableEq

def ResolverConfig.from_parts (domain : Option String) (search : List String)
    (group : NameServerConfigGroup) : ResolverConfig :=
  ⟨domain, search, group⟩

/-- hickory-resolver's ResolverOpts, restricted to the fields lib.rs
touches. -/
structure ResolverOpts where
  ip_strategy : LookupIpStrategy
  recursion_desired : Bool
  use_hosts_file : Bool
deriving DecidableEq

/-- hickory's `ResolverOpts::default()`: dual-stack IPv4-then-IPv6,
recursion desired, hosts file consulted. -/
def ResolverOpts.default : ResolverOpts :=
  ⟨LookupIpStrategy.Ipv4thenIpv6, true, true⟩

/-- A built resolver: the configuration and options handed to the engine. -/
structure Resolver where
  config : ResolverConfig
  options : ResolverOpts
deriving DecidableEq

/-- Model of hickory's `Resolver::new`: packages the configuration and
options; engine-internal construction failure is an external condition not
modelled. -/
def Resolver.new (config : ResolverConfig) (options : ResolverOpts) :
    Except Error Resolver :=
  Except.ok ⟨config, options⟩

def MAX_RETRIES : Nat := 720

def WAIT_SECONDS : Nat := 5

/-- lib.rs `ipv6_resolver`: build options from the default, switch to
IPv6-only when asked, set recursion as requested, always disable the
hosts file, then construct the resolver. -/
def ipv6_resolver (group : NameServerConfigGroup) (recursion : Bool)
    (ipv6_only : Bool) : Except Error Resolver :=
  let config := ResolverConfig.from_parts none [] group
  let options0 := ResolverOpts.default
  let options1 :=
    if ipv6_only then { options0 with ip_strategy := LookupIpStrategy.Ipv6Only }
    else options0
  let options2 := { options1 with recursion_desired := recursion }
  let options3 := { options2 with use_hosts_file := false }
  Resolver.new config options3

/-- lib.rs `recursive_resolver`: clear-text port-53 group over the given
IPs, recursion enabled. -/
def recursive_resolver (ips : List String) (ipv6_only : Bool) :
    Except Error Resolver :=
  let group := NameServerConfigGroup.from_ips_clear ips 53 false
  ipv6_resolver group true ipv6_only

/-- The per-round collection step of lib.rs lines 49-52: map
`has_single_acme` over the resolvers and collect into `Result<Vec<bool>>`,
stopping at the first error (Rust's iterator `collect` into `Result` is
short-circuiting: resolvers after the failing one are not queried). -/
def queryAll {ρ : Type} (query : ρ → Except Error Bool) :
    List ρ → Except Error (List Bool)
  | [] => Except.ok []
  | r :: rs =>
    match query r with
    | Except.error e => Except.error e
    | Except.ok b => (queryAll query rs).map (fun l => b :: l)

/-- One CHECK round of lib.rs lines 49-54: collect the per-resolver
results and require all of them true (`all(identity)`). -/
def allMatchOf {ρ : Type} (query : Nat → ρ → Except Error Bool)
    (resolvers : List ρ) (i : Nat) : Except Error Bool :=
  (queryAll (query i) resolvers).map (fun l => l.all id)

/-- The while loop of lib.rs lines 49-60.  `maxLeft` is the number of
retries still allowed, maintained as `MAX_RETRIES - i` where `i` is the
Rust attempt counter (the loop guard `i < MAX_RETRIES` is `maxLeft ≠ 0`).
The round check runs first in every guard evaluation — in particular one
more check runs when the counter has already reached the maximum — and a
query error aborts the loop through `?`.  Returns the final counter. -/
def checkLoop (allMatch : Nat → Except Error Bool) :
    Nat → Nat → Except Error Nat
  | 0, i =>
    match allMatch i with
    | Except.error e => Except.error e
    | Except.ok _ => Except.ok i
  | m + 1, i =>
    match allMatch i with
    | Except.error e => Except.error e
    | Except.ok c =>
      if c = false then checkLoop allMatch m (i + 1) else Except.ok i

/-- Number of CHECK rounds `checkLoop` performs, i.e. how many times it
evaluates `allMatch`. -/
def checkLoopRounds (allMatch : Nat → Except Error Bool) : Nat → Nat → Nat
  | 0, _ => 1
  | m + 1, i =>
    match allMatch i with
    | Except.error _ => 1
    | Except.ok c => if c = false then 1 + checkLoopRounds allMatch m (i + 1) else 1

/-- lib.rs `has_acme_challenge`, lines 38-67: run discovery once (the
`?` on line 44 propagates its error before any CHECK round), then the
poll loop starting from counter 0, then return the timeout error when the
counter reached the maximum and success otherwise.  Discovery and the DNS
answers are the environment parameters. -/
def has_acme_challenge {ρ : Type} (discovery : Except Error (List ρ))
    (query : Nat → ρ → Except Error Bool) : Except Error Unit :=
  match discovery with
  | Except.error e => Except.error e
  | Except.ok resolvers =>
    match checkLoop (allMatchOf query resolvers) MAX_RETRIES 0 with
    | Except.error e => Except.error e
    | Except.ok i =>
      if MAX_RETRIES ≤ i then Except.error Error.AcmeChallege else Except.ok ()

/-- Number of CHECK rounds a `has_acme_challenge` call performs. -/
def has_acme_challenge_rounds {ρ : Type} (discovery : Except Error (List ρ))
    (query : Nat → ρ → Except Error Bool) : Nat :=
  match discovery with
  | Except.error _ => 0
  | Except.ok resolvers => checkLoopRounds (allMatchOf query resolvers) MAX_RETRIES 0

/-- Modelled from the spec: `authoritive_resolvers` lives in
src/crates/dns-check-updated/src/resolver.rs, which is not among the
provided sources.  Spec section 4.3: zero NS records is the fatal
DomainHasNoAuthority error; otherwise one resolver per resolved
nameserver address (address resolution abstracted as `addresses`). -/
def authoritive_resolvers {σ ρ : Type} (ns_records : List σ)
    (addresses : σ → List ρ) : Except Error (List ρ) :=
  match ns_records with
  | [] => Except.error Error.DomainHasNoAuthority
  | l => Except.ok (l.map addresses).flatten

end DnsCheck

namespace TransipApi

/-- Modelled from the spec/code context: the transip-api crate's error
enum is not among the provided sources; token.rs uses the `Token` variant
for malformed token strings, and any base64/JSON decode failure is folded
into a single decode variant here. -/
inductive Error where
  | Token
  | Decode
deriving DecidableEq

/-- token.rs `Token`: the raw token string plus the embedded expiry
timestamp extracted at construction. -/
structure Token where
  raw : String
  expired : Int
deriving DecidableEq

/-- token.rs `TokenResponseMeta`: the decoded JWT payload claims. -/
structure TokenResponseMeta where
  iss : String
  aud : String
  jti : String
  iat : Int
  nbf : Int
  exp : Int
  cid : Int
  ro : Bool
  gk : Bool
  kv : Bool

/-- Rust's `str::split('.')` over the characters of the string: splits at
every dot, keeping empty segments, so the number of segments is always
one more than the number of dots. -/
def splitDot : List Char → List (List Char)
  | [] => [[]]
  | c :: cs =>
    if c = '.' then [] :: splitDot cs
    else
      match splitDot cs with
      | [] => [[c]]
      | p :: ps => (c :: p) :: ps

/-- token.rs lines 152-163, `TryFrom<&str> for EncodedTokenMeta`: split
the token on dots; exactly three segments is required, and the middle
segment (the encoded payload) is kept; anything else is the Token error. -/
def EncodedTokenMeta.try_from (token : String) : Except Error String :=
  let splitted := splitDot token.data
  if splitted.length = 3 then
    Except.ok (String.mk (splitted.getD 1 []))
  else
    Except.error Error.Token

/-- token.rs lines 126-135 and 145-150, `TryFrom<&str> for
TokenResponseMeta`: take the middle segment and base64/JSON-decode it.
The external base64 and serde decoding is the `decode` parameter. -/
def TokenResponseMeta.try_from_str
    (decode : String → Except Error TokenResponseMeta) (token : String) :
    Except Error TokenResponseMeta :=
  (EncodedTokenMeta.try_from token).bind decode

/-- token.rs lines 100-105, `token_expiration_timestamp`: the `exp`
claim of the decoded payload. -/
def token_expiration_timestamp
    (decode : String → Except Error TokenResponseMeta) (token : String) :
    Except Error Int :=
  (TokenResponseMeta.try_from_str decode token).map (fun meta => meta.exp)

/-- token.rs lines 77-82, `TryFrom<String> for Token`: extract the expiry
timestamp and package it with the raw string. -/
def Token.try_from (decode : String → Except Error TokenResponseMeta)
    (raw : String) : Except Error Token :=
  (token_expiration_timestamp decode raw).map (fun expired => Token.mk raw expired)

/-- token.rs lines 84-88, `TokenExpired for Token`: expired when the
embedded timestamp is strictly below the current Unix time plus 2.  The
current time `Utc::now().timestamp()` is the `now` parameter. -/
def Token.token_expired (t : Token) (now : Int) : Bool :=
  t.expired < now + 2

/-- token.rs lines 90-98, `TokenExpired for Option<Token>`: an absent
token is expired; a present one defers to the token's own check. -/
def token_expired_opt (o : Option Token) (now : Int) : Bool :=
  match o with
  | some t => t.token_expired now
  | none => true

end TransipApi

namespace DnsCheck

/-- Collecting per-resolver results short-circuits: once one resolver
reports an error, the collected result is that error, whatever the
resolvers after it would have answered. -/
theorem queryAll_eq_error {ρ : Type} (q : ρ → Except Error Bool) (e : Error) :
    ∀ (l1 : List ρ) (r : ρ) (l2 : List ρ),
      (∀ x ∈ l1, ∃ b, q x = Except.ok b) → q r = Except.error e →
      queryAll q (l1 ++ r :: l2) = Except.error e := by
  intro l1
  induction l1 with
  | nil =>
    intro r l2 _ hr
    simp [queryAll, hr]
  | cons a l ih =>
    intro r l2 h1 hr
    obtain ⟨b, hb⟩ := h1 a (by simp)
    have htail := ih r l2 (fun x hx => h1 x (by simp [hx])) hr
    simp [queryAll, hb, htail, Except.map]

/-- A one-resolver CHECK round reports exactly what that resolver
answered, when it answered. -/
theorem allMatchOf_single {ρ : Type} (q : Nat → ρ → Except Error Bool)
    (r : ρ) (i : Nat) (b : Bool) (h : q i r = Except.ok b) :
    allMatchOf q [r] i = Except.ok b := by
  simp [allMatchOf, queryAll, h, Except.map]

/-- A one-resolver CHECK round propagates that resolver's error. -/
theorem allMatchOf_single_error {ρ : Type} (q : Nat → ρ → Except Error Bool)
    (r : ρ) (i : Nat) (e : Error) (h : q i r = Except.error e) :
    allMatchOf q [r] i = Except.error e := by
  simp [allMatchOf, queryAll, h, Except.map]

/-- If every round up to the budget reports a clean mismatch, the loop
runs the counter all the way up and returns it. -/
theorem checkLoop_eq_of_all_false (am : Nat → Except Error Bool) :
    ∀ (m i : Nat), (∀ j, i ≤ j → j ≤ i + m → am j = Except.ok false) →
      checkLoop am m i = Except.ok (i + m) := by
  intro m
  induction m with
  | zero =>
    intro i h
    simp [checkLoop, h i (Nat.le_refl i) (by omega)]
  | succ m ih =>
    intro i h
    have hf := h i (Nat.le_refl i) (by omega)
    have htail := ih (i + 1) (fun j hj hj2 => h j (by omega) (by omega))
    simp [checkLoop, hf, htail]
    omega

/-- If rounds before `n` are clean mismatches and round `n` is a full
match, the loop stops at round `n` with the counter equal to `n`,
provided `n` is within the budget window. -/
theorem checkLoop_eq_ok_of_true (am : Nat → Except Error Bool) (n : Nat)
    (hn : am n = Except.ok true) :
    ∀ (m i : Nat), i ≤ n → n ≤ i + m →
      (∀ j, i ≤ j → j < n → am j = Except.ok false) →
      checkLoop am m i = Except.ok n := by
  intro m
  induction m with
  | zero =>
    intro i h1 h2 _
    have hin : i = n := by omega
    subst hin
    simp [checkLoop, hn]
  | succ m ih =>
    intro i h1 h2 hprev
    rcases Nat.eq_or_lt_of_le h1 with h | h
    · subst h
      simp [checkLoop, hn]
    · have hf := hprev i (Nat.le_refl i) h
      have htail := ih (i + 1) h (by omega) (fun j hj hj2 => hprev j (by omega) hj2)
      simp [checkLoop, hf, htail]

/-- If rounds before `n` are clean mismatches and round `n` reports an
error, the loop returns that error, provided `n` is within the budget
window (which includes the extra round at the exhausted counter). -/
theorem checkLoop_eq_error_of (am : Nat → Except Error Bool) (n : Nat)
    (e : Error) (hn : am n = Except.error e) :
    ∀ (m i : Nat), i ≤ n → n ≤ i + m →
      (∀ j, i ≤ j → j < n → am j = Except.ok false) →
      checkLoop am m i = Except.error e := by
  intro m
  induction m with
  | zero =>
    intro i h1 h2 _
    have hin : i = n := by omega
    subst hin
    simp [checkLoop, hn]
  | succ m ih =>
    intro i h1 h2 hprev
    rcases Nat.eq_or_lt_of_le h1 with h | h
    · subst h
      simp [checkLoop, hn]
    · have hf := hprev i (Nat.le_refl i) h
      have htail := ih (i + 1) h (by omega) (fun j hj hj2 => hprev j (by omega) hj2)
      simp [checkLoop, hf, htail]

/-- The loop never performs more than one round beyond the remaining
budget. -/
theorem checkLoopRounds_le (am : Nat → Except Error Bool) :
    ∀ (m i : Nat), checkLoopRounds am m i ≤ m + 1 := by
  intro m
  induction m with
  | zero =>
    intro i
    simp [checkLoopRounds]
  | succ m ih =>
    intro i
    cases h : am i with
    | error e => simp [checkLoopRounds, h]
    | ok c =>
      cases c with
      | false =>
        have := ih (i + 1)
        simp [checkLoopRounds, h]
        omega
      | true => simp [checkLoopRounds, h]

/-- With a clean mismatch on every round of the window, the loop performs
one round per unit of budget plus the final round at the exhausted
counter. -/
theorem checkLoopRounds_of_all_false (am : Nat → Except Error Bool) :
    ∀ (m i : Nat), (∀ j, i ≤ j → j ≤ i + m → am j = Except.ok false) →
      checkLoopRounds am m i = m + 1 := by
  intro m
  induction m with
  | zero =>
    intro i _
    simp [checkLoopRounds]
  | succ m ih =>
    intro i h
    have hf := h i (Nat.le_refl i) (by omega)
    have htail := ih (i + 1) (fun j hj hj2 => h j (by omega) (by omega))
    simp [checkLoopRounds, hf, htail]
    omega

/-- When the first non-mismatch round `n` is a full match, exactly the
rounds up to and including `n` are performed. -/
theorem checkLoopRounds_of_true (am : Nat → Except Error Bool) (n : Nat)
    (hn : am n = Except.ok true) :
    ∀ (m i : Nat), i ≤ n → n ≤ i + m →
      (∀ j, i ≤ j → j < n → am j = Except.ok false) →
      checkLoopRounds am m i = n - i + 1 := by
  intro m
  induction m with
  | zero =>
    intro i h1 h2 _
    have hin : i = n := by omega
    subst hin
    simp [checkLoopRounds]
  | succ m ih =>
    intro i h1 h2 hprev
    rcases Nat.eq_or_lt_of_le h1 with h | h
    · subst h
      simp [checkLoopRounds, hn]
    · have hf := hprev i (Nat.le_refl i) h
      have htail := ih (i + 1) h (by omega) (fun j hj hj2 => hprev j (by omega) hj2)
      simp [checkLoopRounds, hf, htail]
      omega

/-- When the first non-mismatch round `n` reports an error, exactly the
rounds up to and including `n` are performed. -/
theorem checkLoopRounds_of_error (am : Nat → Except Error Bool) (n : Nat)
    (e : Error) (hn : am n = Except.error e) :
    ∀ (m i : Nat), i ≤ n → n ≤ i + m →
      (∀ j, i ≤ j → j < n → am j = Except.ok false) →
      checkLoopRounds am m i = n - i + 1 := by
  intro m
  induction m with
  | zero =>
    intro i h1 h2 _
    have hin : i = n := by omega
    subst hin
    simp [checkLoopRounds]
  | succ m ih =>
    intro i h1 h2 hprev
    rcases Nat.eq_or_lt_of_le h1 with h | h
    · subst h
      simp [checkLoopRounds, hn]
    · have hf := hprev i (Nat.le_refl i) h
      have htail := ih (i + 1) h (by omega) (fun j hj hj2 => hprev j (by omega) hj2)
      simp [checkLoopRounds, hf, htail]
      omega

end DnsCheck

namespace DnsCheck

set_option maxRecDepth 4000

/-- C1 counterexample: the challenge matches on every resolver in CHECK
round 720 (the round performed once the attempt counter has already
reached the maximum), yet `has_acme_challenge` returns the timeout error
rather than success, so a call in which some CHECK round observes all
per-resolver results true does not always return Ok. -/
theorem has_acme_challenge_late_match_cex :
    allMatchOf (fun i (_ : Unit) =>
        if i = 720 then Except.ok true else Except.ok false) [()] 720 =
      Except.ok true ∧
    has_acme_challenge (Except.ok [()]) (fun i (_ : Unit) =>
        if i = 720 then Except.ok true else Except.ok false) =
      Except.error Error.AcmeChallege := by
  constructor
  · rfl
  · have htrue : allMatchOf (fun i (_ : Unit) =>
        if i = 720 then Except.ok true else Except.ok false) [()] 720 =
        Except.ok true := rfl
    have hloop := checkLoop_eq_ok_of_true _ 720 htrue MAX_RETRIES 0
      (Nat.zero_le 720) (by simp [MAX_RETRIES])
      (fun j _ hj => allMatchOf_single _ () j false (if_neg (by omega)))
    simp only [has_acme_challenge, hloop]
    rfl

/-- C1 (amended): if the CHECK rounds before round `n` all observe a
clean mismatch and round `n` observes every discovered resolver matching,
and `n` is still strictly below the 720-retry maximum, then the call
returns success after exactly `n + 1` CHECK rounds; in particular an
already-converged pair succeeds on the first CHECK round (`n = 0`),
consuming no retries.  (A full match first observed in the round run at
the exhausted counter — round 720 — still returns the timeout error.) -/
theorem has_acme_challenge_ok_of_match_before_budget {ρ : Type}
    (resolvers : List ρ) (query : Nat → ρ → Except Error Bool) (n : Nat)
    (hn : n < MAX_RETRIES)
    (hprev : ∀ j, j < n → allMatchOf query resolvers j = Except.ok false)
    (htrue : allMatchOf query resolvers n = Except.ok true) :
    has_acme_challenge (Except.ok resolvers) query = Except.ok () ∧
    has_acme_challenge_rounds (Except.ok resolvers) query = n + 1 := by
  have hloop := checkLoop_eq_ok_of_true (allMatchOf query resolvers) n htrue
    MAX_RETRIES 0 (Nat.zero_le n) (by omega) (fun j _ hj => hprev j hj)
  have hrounds := checkLoopRounds_of_true (allMatchOf query resolvers) n htrue
    MAX_RETRIES 0 (Nat.zero_le n) (by omega) (fun j _ hj => hprev j hj)
  have hlt : ¬ MAX_RETRIES ≤ n := by omega
  constructor
  · simp [has_acme_challenge, hloop, hlt]
  · simp [has_acme_challenge_rounds, hrounds]

/-- C1 witness: an already-converged pair succeeds on the first CHECK
round. -/
theorem has_acme_challenge_ok_of_match_before_budget_witness :
    has_acme_challenge (Except.ok [()]) (fun _ (_ : Unit) => Except.ok true) =
      Except.ok () ∧
    has_acme_challenge_rounds (Except.ok [()]) (fun _ (_ : Unit) => Except.ok true) =
      0 + 1 :=
  has_acme_challenge_ok_of_match_before_budget [()] _ 0 (by decide)
    (fun j hj => absurd hj (Nat.not_lt_zero j)) rfl

/-- C2 counterexample: with a single resolver that never matches, the
call performs 721 CHECK rounds, not 720; and when the value is missing
for the whole 720-round retry budget but the extra round run at the
exhausted counter hits a transport error, the call returns that transport
error rather than the timeout error — so a CHECK round is performed past
the maximum. -/
theorem has_acme_challenge_round_count_cex :
    has_acme_challenge_rounds (Except.ok [()])
        (fun _ (_ : Unit) => (Except.ok false : Except Error Bool)) = 721 ∧
    has_acme_challenge (Except.ok [()]) (fun i (_ : Unit) =>
        if i = 720 then Except.error Error.Transport else Except.ok false) =
      Except.error Error.Transport := by
  constructor
  · have hrounds := checkLoopRounds_of_all_false
      (allMatchOf (fun _ (_ : Unit) => (Except.ok false : Except Error Bool)) [()])
      MAX_RETRIES 0 (fun j _ _ => allMatchOf_single _ () j false rfl)
    simpa [has_acme_challenge_rounds, MAX_RETRIES] using hrounds
  · have herr : allMatchOf (fun i (_ : Unit) =>
        if i = 720 then Except.error Error.Transport else Except.ok false) [()] 720 =
        Except.error Error.Transport := allMatchOf_single_error _ () 720 _ rfl
    have hloop := checkLoop_eq_error_of _ 720 Error.Transport herr MAX_RETRIES 0
      (Nat.zero_le 720) (by simp [MAX_RETRIES])
      (fun j _ hj => allMatchOf_single _ () j false (if_neg (by omega)))
    simp [has_acme_challenge, hloop]

/-- C2 (amended): if every CHECK round observes at least one resolver
without the expected value (a clean mismatch), the call returns the
AcmeChallege timeout error after 721 failed CHECK rounds: when the
attempt counter reaches the maximum of 720 one further CHECK round is
still performed (its boolean result cannot produce success, though an
error in it would propagate), and then the timeout error is returned. -/
theorem has_acme_challenge_timeout_of_never_match {ρ : Type}
    (resolvers : List ρ) (query : Nat → ρ → Except Error Bool)
    (h : ∀ j, allMatchOf query resolvers j = Except.ok false) :
    has_acme_challenge (Except.ok resolvers) query =
      Except.error Error.AcmeChallege ∧
    has_acme_challenge_rounds (Except.ok resolvers) query = MAX_RETRIES + 1 := by
  have hloop := checkLoop_eq_of_all_false (allMatchOf query resolvers)
    MAX_RETRIES 0 (fun j _ _ => h j)
  have hrounds := checkLoopRounds_of_all_false (allMatchOf query resolvers)
    MAX_RETRIES 0 (fun j _ _ => h j)
  constructor
  · simp [has_acme_challenge, hloop]
  · simp [has_acme_challenge_rounds, hrounds]

/-- C2 witness: a single permanently mismatching resolver yields the
timeout error after 721 CHECK rounds. -/
theorem has_acme_challenge_timeout_of_never_match_witness :
    has_acme_challenge (Except.ok [()])
        (fun _ (_ : Unit) => (Except.ok false : Except Error Bool)) =
      Except.error Error.AcmeChallege ∧
    has_acme_challenge_rounds (Except.ok [()])
        (fun _ (_ : Unit) => (Except.ok false : Except Error Bool)) =
      MAX_RETRIES + 1 :=
  has_acme_challenge_timeout_of_never_match [()] _
    (fun j => allMatchOf_single _ () j false rfl)

end DnsCheck

namespace DnsCheck

/-- C3: resolvers are queried one at a time in discovery order, and a
transport error from one resolver in a CHECK round is the call's result:
with the resolver list split as `l1 ++ r :: l2`, if the rounds before `n`
observed clean mismatches, the resolvers before `r` in round `n` answered
without error, and `r` reported error `e`, then the call returns `e` —
for every possible behaviour of the resolvers after `r` in that round and
of every resolver in later rounds (so none of them is consulted), and the
call stops after exactly the `n + 1` rounds performed, converting the
error into neither a retry nor a success. -/
theorem has_acme_challenge_propagates_round_error {ρ : Type}
    (l1 l2 : List ρ) (r : ρ) (query : Nat → ρ → Except Error Bool)
    (n : Nat) (e : Error) (hn : n ≤ MAX_RETRIES)
    (hprev : ∀ j, j < n → allMatchOf query (l1 ++ r :: l2) j = Except.ok false)
    (hok : ∀ x ∈ l1, ∃ b, query n x = Except.ok b)
    (herr : query n r = Except.error e) :
    has_acme_challenge (Except.ok (l1 ++ r :: l2)) query = Except.error e ∧
    has_acme_challenge_rounds (Except.ok (l1 ++ r :: l2)) query = n + 1 := by
  have ham : allMatchOf query (l1 ++ r :: l2) n = Except.error e := by
    have hq := queryAll_eq_error (query n) e l1 r l2 hok herr
    simp [allMatchOf, hq, Except.map]
  have hloop := checkLoop_eq_error_of (allMatchOf query (l1 ++ r :: l2)) n e ham
    MAX_RETRIES 0 (Nat.zero_le n) (by omega) (fun j _ hj => hprev j hj)
  have hrounds := checkLoopRounds_of_error (allMatchOf query (l1 ++ r :: l2)) n e ham
    MAX_RETRIES 0 (Nat.zero_le n) (by omega) (fun j _ hj => hprev j hj)
  constructor
  · simp [has_acme_challenge, hloop]
  · simp [has_acme_challenge_rounds, hrounds]

/-- C3 witness: two resolvers, the first reports a transport error in the
first round while the second would have reported a match; the call
returns the transport error after a single CHECK round. -/
theorem has_acme_challenge_propagates_round_error_witness :
    has_acme_challenge (Except.ok [0, 1]) (fun _ (x : Nat) =>
        if x = 0 then Except.error Error.Transport else Except.ok true) =
      Except.error Error.Transport ∧
    has_acme_challenge_rounds (Except.ok [0, 1]) (fun _ (x : Nat) =>
        if x = 0 then Except.error Error.Transport else Except.ok true) =
      0 + 1 :=
  has_acme_challenge_propagates_round_error [] [1] 0 _ 0 Error.Transport
    (Nat.zero_le MAX_RETRIES)
    (fun j hj => absurd hj (Nat.not_lt_zero j))
    (fun x hx => absurd hx (List.not_mem_nil x))
    rfl

/-- C4: discovery runs once, before any CHECK round, and its error is the
call's result with zero CHECK rounds performed; in particular the
modelled zero-NS-records discovery yields DomainHasNoAuthority, which the
call propagates with zero CHECK rounds. -/
theorem has_acme_challenge_discovery_error {ρ σ : Type}
    (e : Error) (query : Nat → ρ → Except Error Bool)
    (addresses : σ → List ρ) :
    has_acme_challenge (Except.error e) query = Except.error e ∧
    has_acme_challenge_rounds (Except.error e) query = 0 ∧
    authoritive_resolvers ([] : List σ) addresses =
      Except.error Error.DomainHasNoAuthority ∧
    has_acme_challenge (authoritive_resolvers ([] : List σ) addresses) query =
      Except.error Error.DomainHasNoAuthority ∧
    has_acme_challenge_rounds (authoritive_resolvers ([] : List σ) addresses) query =
      0 :=
  ⟨rfl, rfl, rfl, rfl, rfl⟩

/-- C5: whatever nameserver group and recursion/ipv6Only flags the
factory is called with, the options of the resolver it builds have the
local hosts file disabled. -/
theorem ipv6_resolver_disables_hosts_file
    (group : NameServerConfigGroup) (recursion ipv6_only : Bool)
    (res : Resolver)
    (h : ipv6_resolver group recursion ipv6_only = Except.ok res) :
    res.options.use_hosts_file = false := by
  cases ipv6_only <;>
    · simp only [ipv6_resolver, Resolver.new, Except.ok.injEq] at h
      subst h
      rfl

/-- C5 witness: a concrete build with recursion and IPv6-only both on. -/
theorem ipv6_resolver_disables_hosts_file_witness :
    (Resolver.mk (ResolverConfig.mk none [] (NameServerConfigGroup.mk [] 53 false))
        (ResolverOpts.mk LookupIpStrategy.Ipv6Only true false)).options.use_hosts_file =
      false :=
  ipv6_resolver_disables_hosts_file
    (NameServerConfigGroup.from_ips_clear [] 53 false) true true
    (Resolver.mk (ResolverConfig.mk none [] (NameServerConfigGroup.mk [] 53 false))
      (ResolverOpts.mk LookupIpStrategy.Ipv6Only true false))
    rfl

/-- C6: every call ends in one of exactly two terminal outcomes —
success or an error — and the number of CHECK rounds it performs is
bounded by the fixed per-call retry budget (720 retries, hence at most
721 rounds). -/
theorem has_acme_challenge_two_outcomes_bounded {ρ : Type}
    (discovery : Except Error (List ρ)) (query : Nat → ρ → Except Error Bool) :
    (has_acme_challenge discovery query = Except.ok () ∨
      ∃ e, has_acme_challenge discovery query = Except.error e) ∧
    has_acme_challenge_rounds discovery query ≤ MAX_RETRIES + 1 := by
  constructor
  · cases h : has_acme_challenge discovery query with
    | ok u => exact Or.inl (by cases u; rfl)
    | error e => exact Or.inr ⟨e, rfl⟩
  · cases discovery with
    | error e => simp [has_acme_challenge_rounds]
    | ok resolvers =>
      simpa [has_acme_challenge_rounds] using
        checkLoopRounds_le (allMatchOf query resolvers) MAX_RETRIES 0

/-- C7: the recursive resolver used for delegation discovery is built
with recursion desired, for every bootstrap IP set and ipv6Only flag. -/
theorem recursive_resolver_recursion_enabled
    (ips : List String) (ipv6_only : Bool) (res : Resolver)
    (h : recursive_resolver ips ipv6_only = Except.ok res) :
    res.options.recursion_desired = true := by
  cases ipv6_only <;>
    · simp only [recursive_resolver, ipv6_resolver, Resolver.new,
        Except.ok.injEq] at h
      subst h
      rfl

/-- C7 witness: a concrete recursive resolver over one bootstrap IP. -/
theorem recursive_resolver_recursion_enabled_witness :
    (Resolver.mk
        (ResolverConfig.mk none [] (NameServerConfigGroup.mk ["8.8.8.8"] 53 false))
        (ResolverOpts.mk LookupIpStrategy.Ipv4thenIpv6 true false)).options.recursion_desired =
      true :=
  recursive_resolver_recursion_enabled ["8.8.8.8"] false
    (Resolver.mk
      (ResolverConfig.mk none [] (NameServerConfigGroup.mk ["8.8.8.8"] 53 false))
      (ResolverOpts.mk LookupIpStrategy.Ipv4thenIpv6 true false))
    rfl

end DnsCheck

namespace TransipApi

/-- C8: a token is reported expired exactly when its embedded expiry
timestamp is strictly below the current Unix time plus the 2-second
safety margin, so a token is reported expired up to 2 seconds before its
actual expiry; at or beyond the margin it is not reported expired. -/
theorem token_expired_iff_margin (t : Token) (now : Int) :
    (Token.token_expired t now = true ↔ t.expired < now + 2) ∧
    (Token.token_expired t now = false ↔ now + 2 ≤ t.expired) := by
  constructor
  · simp [Token.token_expired]
  · simp [Token.token_expired]

/-- C8 witness: a token expiring one second from now is already reported
expired, while one expiring two seconds from now is not. -/
theorem token_expired_iff_margin_witness :
    (Token.token_expired (Token.mk "" 101) 100 = true ↔ (101 : Int) < 100 + 2) ∧
    (Token.token_expired (Token.mk "" 101) 100 = false ↔ (100 : Int) + 2 ≤ 101) :=
  token_expired_iff_margin (Token.mk "" 101) 100

/-- C9: the expiry check on an optional token is true when the option is
None, and agrees with the inner token's check when it is Some. -/
theorem token_expired_opt_spec (t : Token) (now : Int) :
    token_expired_opt none now = true ∧
    token_expired_opt (some t) now = Token.token_expired t now :=
  ⟨rfl, rfl⟩

/-- Once the middle segment is extracted, the token constructor's result
is the decoder's result on that segment, repackaged. -/
theorem token_try_from_of_encoded_ok
    (decode : String → Except Error TokenResponseMeta) (s mid : String)
    (he : EncodedTokenMeta.try_from s = Except.ok mid) :
    Token.try_from decode s =
      (decode mid).map (fun meta => Token.mk s meta.exp) := by
  simp only [Token.try_from, token_expiration_timestamp,
    TokenResponseMeta.try_from_str, he, Except.bind]
  cases hd : decode mid with
  | error e => simp [hd, Except.map]
  | ok meta => simp [hd, Except.map]

/-- C10: a token string without exactly three dot-separated segments
fails to parse, both at the segment-splitting step and through the whole
token constructor, with the Token error; a three-segment string proceeds
to decoding of its middle segment, and the constructor's result is
exactly the decoder's result on that segment. -/
theorem token_parse_three_segments (s : String)
    (decode : String → Except Error TokenResponseMeta) :
    ((splitDot s.data).length ≠ 3 →
      EncodedTokenMeta.try_from s = Except.error Error.Token ∧
      Token.try_from decode s = Except.error Error.Token) ∧
    ((splitDot s.data).length = 3 →
      EncodedTokenMeta.try_from s =
        Except.ok (String.mk ((splitDot s.data).getD 1 [])) ∧
      Token.try_from decode s =
        (decode (String.mk ((splitDot s.data).getD 1 []))).map
          (fun meta => Token.mk s meta.exp)) := by
  constructor
  · intro h
    have he : EncodedTokenMeta.try_from s = Except.error Error.Token := by
      simp [EncodedTokenMeta.try_from, h]
    refine ⟨he, ?_⟩
    simp [Token.try_from, token_expiration_timestamp,
      TokenResponseMeta.try_from_str, he, Except.map, Except.bind]
  · intro h
    have he : EncodedTokenMeta.try_from s =
        Except.ok (String.mk ((splitDot s.data).getD 1 [])) := by
      simp [EncodedTokenMeta.try_from, h]
    exact ⟨he, token_try_from_of_encoded_ok decode s _ he⟩

/-- C10 witness: a one-segment string is rejected with the Token error,
and a three-segment string hands its middle segment to the decoder. -/
theorem token_parse_three_segments_witness :
    ((splitDot "ab".data).length ≠ 3 ∧
      EncodedTokenMeta.try_from "ab" = Except.error Error.Token ∧
      Token.try_from (fun _ => Except.error Error.Decode) "ab" =
        Except.error Error.Token) ∧
    ((splitDot "a.b.c".data).length = 3 ∧
      EncodedTokenMeta.try_from "a.b.c" =
        Except.ok (String.mk ((splitDot "a.b.c".data).getD 1 [])) ∧
      Token.try_from (fun _ => Except.error Error.Decode) "a.b.c" =
        (Except.error Error.Decode : Except Error TokenResponseMeta).map
          (fun meta => Token.mk "a.b.c" meta.exp)) :=
  ⟨⟨by decide,
      (token_parse_three_segments "ab" (fun _ => Except.error Error.Decode)).1
        (by decide)⟩,
    ⟨by decide,
      (token_parse_three_segments "a.b.c" (fun _ => Except.error Error.Decode)).2
        (by decide)⟩⟩

end TransipApi
